import Mathlib

/- Shallow embedding of the data-link protocol engine of src/link.py
   (cc_blender_tools). Python floats are modelled as exact rationals,
   Python byte strings as lists of naturals below 256, Python str values
   as lists of unicode code points, and Blender scene operations as
   opaque effects recorded in an effect trace. -/

/- ===== Protocol constants (src/link.py lines 11-25) ===== -/

def MAX_RECEIVE : Nat := 24

def HANDSHAKE_TIMEOUT_S : ℚ := 60

def KEEPALIVE_TIMEOUT_S : ℚ := 300

def PING_INTERVAL_S : ℚ := 120

/- OpCodes (src/link.py lines 27-48). -/

def OpCodes_HELLO : Nat := 1

def OpCodes_PING : Nat := 2

def OpCodes_STOP : Nat := 10

def OpCodes_DISCONNECT : Nat := 11

def OpCodes_NOTIFY : Nat := 50

def OpCodes_POSE : Nat := 210

def OpCodes_SEQUENCE_FRAME : Nat := 221

/- ===== Wire codec (src/link.py lines 188-200) ===== -/

/- utf-8 encoding of one unicode code point, as produced by Python
   bytes(s, encoding="utf-8") for each character of s. -/
def utf8EncodeChar (c : Nat) : List Nat :=
  if c < 128 then [c]
  else if c < 2048 then [192 + c / 64, 128 + c % 64]
  else if c < 65536 then [224 + c / 4096, 128 + c / 64 % 64, 128 + c % 64]
  else [240 + c / 262144, 128 + c / 4096 % 64, 128 + c / 64 % 64, 128 + c % 64]

def utf8Encode (s : List Nat) : List Nat :=
  (s.map utf8EncodeChar).flatten

/- A utf-8 continuation byte: 0x80 to 0xBF. -/
def utf8Cont (b : Nat) : Bool := 128 ≤ b && b < 192

def utf8cp2 (b b2 : Nat) : Nat := (b - 192) * 64 + (b2 - 128)

def utf8cp3 (b b2 b3 : Nat) : Nat := (b - 224) * 4096 + (b2 - 128) * 64 + (b3 - 128)

def utf8cp4 (b b2 b3 b4 : Nat) : Nat :=
  (b - 240) * 262144 + (b2 - 128) * 4096 + (b3 - 128) * 64 + (b4 - 128)

/- Validity of a 3-byte sequence: continuation bytes, no overlong form,
   no surrogate. -/
def utf8Valid3 (b b2 b3 : Nat) : Bool :=
  utf8Cont b2 && utf8Cont b3 && 2048 ≤ utf8cp3 b b2 b3 &&
    (utf8cp3 b b2 b3 < 55296 || 57343 < utf8cp3 b b2 b3)

/- Validity of a 4-byte sequence: continuation bytes, no overlong form,
   at most 0x10FFFF. -/
def utf8Valid4 (b b2 b3 b4 : Nat) : Bool :=
  utf8Cont b2 && utf8Cont b3 && utf8Cont b4 &&
    65536 ≤ utf8cp4 b b2 b3 b4 && utf8cp4 b b2 b3 b4 ≤ 1114111

/- Decode one leading utf-8 sequence: given the lead byte and the
   following bytes, return the code point and the remaining bytes, or
   none on an invalid or truncated sequence. -/
def utf8DecodeStep (b : Nat) (rest : List Nat) : Option (Nat × List Nat) :=
  if b < 128 then some (b, rest)
  else if b < 194 then none
  else if b < 224 then
    match rest with
    | b2 :: rest2 => if utf8Cont b2 then some (utf8cp2 b b2, rest2) else none
    | [] => none
  else if b < 240 then
    match rest with
    | b2 :: b3 :: rest3 => if utf8Valid3 b b2 b3 then some (utf8cp3 b b2 b3, rest3) else none
    | _ => none
  else if b < 245 then
    match rest with
    | b2 :: b3 :: b4 :: rest4 =>
      if utf8Valid4 b b2 b3 b4 then some (utf8cp4 b b2 b3 b4, rest4) else none
    | _ => none
  else none

/- Fuel-driven decoding loop; every step consumes at least the lead
   byte, so fuel equal to the byte count never runs out. -/
def utf8DecodeLoop : Nat → List Nat → Option (List Nat)
  | _, [] => some []
  | 0, _ :: _ => none
  | fuel + 1, b :: rest =>
    match utf8DecodeStep b rest with
    | none => none
    | some (cp, rest2) =>
      match utf8DecodeLoop fuel rest2 with
      | none => none
      | some cs => some (cp :: cs)

/- Strict utf-8 decoding as Python bytes.decode("utf-8"): rejects
   truncated sequences, stray continuation bytes, overlong forms,
   surrogates and code points above 0x10FFFF. none models a
   UnicodeDecodeError being raised. -/
def utf8Decode (bs : List Nat) : Option (List Nat) :=
  utf8DecodeLoop bs.length bs

/- Big-endian 4-byte encoding of a Nat below 2^32, as struct.pack("!I", n). -/
def beBytes4 (n : Nat) : List Nat :=
  [n / 16777216 % 256, n / 65536 % 256, n / 256 % 256, n % 256]

def beU32 (bs : List Nat) : Nat :=
  bs.foldl (fun acc b => acc * 256 + b) 0

/- pack_string (src/link.py lines 188-192): a 4-byte big-endian prefix
   holding len(s) -- the NUMBER OF CODE POINTS of the Python str, not the
   number of utf-8 bytes -- followed by the utf-8 encoding of s.
   struct.pack with format !I raises struct.error for values of 2^32 and
   above, modelled by returning none. -/
def pack_string (s : List Nat) : Option (List Nat) :=
  if s.length < 4294967296 then some (beBytes4 s.length ++ utf8Encode s) else none

inductive Unpacked
  | ok (offset : Nat) (s : List Nat)
  | structError
  | unicodeError
deriving DecidableEq

/- struct.unpack_from with format !I raises struct.error when fewer than
   4 bytes remain at offset, modelled by none. -/
def readBE4 (buffer : List Nat) (offset : Nat) : Option Nat :=
  if offset + 4 ≤ buffer.length then some (beU32 ((buffer.drop offset).take 4)) else none

/- unpack_string (src/link.py lines 195-200): reads the 4-byte length,
   slices buffer[offset+4 : offset+4+length] -- a Python slice, which
   CLAMPS to the end of the buffer when fewer than length bytes remain --
   decodes the slice as utf-8, and returns offset advanced by 4 + length
   together with the decoded string. -/
def unpack_string (buffer : List Nat) (offset : Nat) : Unpacked :=
  match readBE4 buffer offset with
  | none => Unpacked.structError
  | some len =>
    match utf8Decode ((buffer.drop (offset + 4)).take len) with
    | none => Unpacked.unicodeError
    | some s => Unpacked.ok (offset + 4 + len) s

/- ===== Python value semantics used by recv (src/link.py lines 796-845) ===== -/

inductive PyVal
  | int (n : Int)
  | bytes (bs : List Nat)
deriving DecidableEq

/- Python == between builtin values of different types (bytes vs int) is
   False; between values of the same type it compares the contents. -/
def pyEq : PyVal → PyVal → Bool
  | PyVal.int a, PyVal.int b => a == b
  | PyVal.bytes a, PyVal.bytes b => a == b
  | _, _ => false

/- Python truthiness: nonzero for int, nonempty for bytes. -/
def pyTruthy : PyVal → Bool
  | PyVal.int n => n != 0
  | PyVal.bytes bs => !bs.isEmpty

inductive HeaderAction
  | closedByClient
  | process (op : Nat) (size : Nat)
  | skip
deriving DecidableEq

/- Header handling inside the recv while-loop (src/link.py lines 808-830).
   header is the bytes value returned by client_sock.recv(8); an orderly
   remote close makes recv return the empty bytes object. Line 812 tests
   (header == 0) and on success runs service_lost and returns; line 816
   tests (header and len(header) == 8) and on success unpacks op_code and
   size with struct.unpack("!II", header) and processes the message. A
   header passing neither test is skipped. -/
def recvHeaderAction (header : List Nat) : HeaderAction :=
  if pyEq (PyVal.bytes header) (PyVal.int 0) then HeaderAction.closedByClient
  else if pyTruthy (PyVal.bytes header) && (header.length == 8) then
    HeaderAction.process (beU32 (header.take 4)) (beU32 (header.drop 4))
  else HeaderAction.skip

/- ===== Receive loop model (src/link.py recv lines 796-845, parse 871-944) ===== -/

/- Outcome of one opcode handler invocation. The receive_ handlers call
   into Blender scene code and JSON decoding and can raise: for example
   receive_notify runs decode_to_json(data), which raises on a malformed
   payload, and parse wraps none of its handler calls in try/except. -/
inductive HandlerRes
  | ok
  | exn (e : String)
deriving DecidableEq

/- parse (src/link.py lines 871-944): resets the keepalive timer and
   dispatches on op_code by an if-elif chain. The PING branch only logs;
   the STOP and DISCONNECT branches run service_stop and
   service_disconnect, whose risky socket and timer operations are
   individually wrapped in try/except inside stop_client, stop_server and
   stop_timer and therefore return normally. Every other branch runs a
   receive_ handler, modelled by the handler oracle. parse contains no
   try/except of its own, so the oracle result is returned unchanged. -/
def parseStep (handler : Nat → HandlerRes) (op : Nat) : HandlerRes :=
  if op = OpCodes_PING ∨ op = OpCodes_STOP ∨ op = OpCodes_DISCONNECT then HandlerRes.ok
  else handler op

structure RecvOut where
  parsed : List Nat
  remaining : List Nat
  is_data : Bool
  clientOpen : Bool
deriving DecidableEq

inductive RecvResult
  | ok (out : RecvOut)
  | raised (e : String)
deriving DecidableEq

/- One iteration of the recv while-loop after parse returned normally
   (src/link.py lines 830-845): count has been incremented for this
   message and is_data reset (line 833). If the message was STOP or
   DISCONNECT then parse closed the client socket, has_client_sock is
   false and the loop returns (lines 835-836). Otherwise the loop
   re-selects (line 838): with no more data the while condition ends the
   loop; with more data is_data is set and the loop returns early when
   count has reached MAX_RECEIVE or the message just parsed was NOTIFY
   (lines 842-845); otherwise the next iteration runs, which is the next
   argument. -/
def recvOkBranch (op : Nat) (rest : List Nat) (count : Nat) (next : RecvResult) : RecvResult :=
  if op = OpCodes_STOP ∨ op = OpCodes_DISCONNECT then RecvResult.ok ⟨[op], rest, false, false⟩
  else
    match rest with
    | [] => RecvResult.ok ⟨[op], [], false, true⟩
    | _ :: _ =>
      if MAX_RECEIVE ≤ count + 1 ∨ op = OpCodes_NOTIFY then RecvResult.ok ⟨[op], rest, true, true⟩
      else
        match next with
        | RecvResult.raised e => RecvResult.raised e
        | RecvResult.ok out =>
          RecvResult.ok ⟨op :: out.parsed, out.remaining, out.is_data, out.clientOpen⟩

/- An exception raised inside parse propagates out of the loop uncaught
   (recv wraps the parse call at line 830 in no try/except); a normal
   parse continues with recvOkBranch. -/
def recvAfterParse (op : Nat) (rest : List Nat) (count : Nat) (next : RecvResult) :
    HandlerRes → RecvResult
  | HandlerRes.exn e => RecvResult.raised e
  | HandlerRes.ok => recvOkBranch op rest count next

/- The recv while-loop (src/link.py lines 804-845) over a queue of
   complete messages abstracted to their opcodes, entered when select
   reported pending data. Each iteration reads one complete message
   (8-byte header plus chunked payload), runs parse on it and continues
   as described by recvAfterParse. RecvOut records the opcodes parsed
   this call, the messages still queued when it returned, the final
   is_data flag and whether the client socket is still open. -/
def recvLoop (handler : Nat → HandlerRes) : List Nat → Nat → RecvResult
  | [], _ => RecvResult.ok ⟨[], [], false, true⟩
  | op :: rest, count =>
    recvAfterParse op rest count (recvLoop handler rest (count + 1)) (parseStep handler op)

/- Handler oracle for runs in which every receive_ handler returns
   normally. -/
def okHandler : Nat → HandlerRes := fun _ => HandlerRes.ok

/- Handler oracle for a run in which the dispatched handler raises, as
   receive_notify does when decode_to_json gets an invalid payload. -/
def throwingHandlers : Nat → HandlerRes := fun _ => HandlerRes.exn "UnicodeDecodeError"

/- ===== Pose record codec (src/link.py lines 1200-1237 and 1343-1426) ===== -/

/- World-space transform of one pose bone, in the component order packed
   on the wire: translation, quaternion (x, y, z, w), scale. Python
   floats are modelled as exact rationals; the float32 packing loss is
   far below the 1e-5 tolerance for the values used here. -/
structure BonePose where
  tx : ℚ
  ty : ℚ
  tz : ℚ
  rx : ℚ
  ry : ℚ
  rz : ℚ
  rw : ℚ
  sx : ℚ
  sy : ℚ
  sz : ℚ
deriving DecidableEq

/- encode_pose_data rigified branch (src/link.py lines 1218-1224):
   t = T.to_translation() * 100, then struct.pack("!ffffffffff",
   t.x, t.y, t.z, r.x, r.y, r.z, r.w, s.x, s.y, s.z). -/
def packBoneRigified (p : BonePose) : List ℚ :=
  [p.tx * 100, p.ty * 100, p.tz * 100, p.rx, p.ry, p.rz, p.rw, p.sx, p.sy, p.sz]

/- encode_pose_data non-rigified branch (src/link.py lines 1230-1236):
   t = T.to_translation() with NO scaling, then the same
   struct.pack("!ffffffffff", ...). -/
def packBonePlain (p : BonePose) : List ℚ :=
  [p.tx, p.ty, p.tz, p.rx, p.ry, p.rz, p.rw, p.sx, p.sy, p.sz]

/- One actor entry of the pose payload: name and link_id as code point
   lists, the rigified flag of its character cache, and its bone poses. -/
structure PoseActorData where
  name : List Nat
  link_id : List Nat
  rigified : Bool
  bones : List BonePose
deriving DecidableEq

/- Wire fields of the pose payload, keeping the field granularity of the
   struct.pack calls. -/
inductive WireVal
  | u32 (n : Nat)
  | strfield (codepoints : List Nat)
  | f32 (x : ℚ)
deriving DecidableEq

/- encode_pose_data (src/link.py lines 1200-1237): packs
   struct.pack("!II", len(actors), frame), then per actor
   pack_string(name), pack_string(link_id) and the 10-float bone records,
   scaled by 100 only in the rigified branch. -/
def encode_pose_data (frame : Nat) (actors : List PoseActorData) : List WireVal :=
  [WireVal.u32 actors.length, WireVal.u32 frame] ++
    (actors.map (fun a =>
      WireVal.strfield a.name :: WireVal.strfield a.link_id ::
        (a.bones.map (fun p =>
          (if a.rigified then packBoneRigified p else packBonePlain p).map WireVal.f32)).flatten)).flatten

/- Decoded transform as built by decode_pose_data. The quaternion is
   reassembled as Quaternion((rw, rx, ry, rz)), i.e. w first. -/
structure DecodedTransform where
  locx : ℚ
  locy : ℚ
  locz : ℚ
  rotw : ℚ
  rotx : ℚ
  roty : ℚ
  rotz : ℚ
  scax : ℚ
  scay : ℚ
  scaz : ℚ
deriving DecidableEq

/- decode_pose_data per-bone conversion (src/link.py lines 1390-1400):
   tx,ty,tz,rx,ry,rz,rw,sx,sy,sz = struct.unpack_from("!ffffffffff", ...),
   loc = Vector((tx, ty, tz)) * 0.01, rot = Quaternion((rw, rx, ry, rz)),
   sca = Vector((sx, sy, sz)). The root transform at lines 1361-1367 uses
   the same conversion with the same 0.01 factor on the translation. -/
def decode_bone_transform (fs : List ℚ) : Option DecodedTransform :=
  match fs with
  | [tx, ty, tz, rx, ry, rz, rw, sx, sy, sz] =>
    some ⟨tx * (1 / 100), ty * (1 / 100), tz * (1 / 100), rw, rx, ry, rz, sx, sy, sz⟩
  | _ => none

/- ===== Connection manager state (src/link.py class LinkService) ===== -/

/- Observable effects of the state transformers: bytes written to the
   socket, signal emissions, log lines, and materialization of cached
   sequence samples into animation data by write_sequence_actions. -/
inductive Effect
  | sent (op : Nat)
  | signal (name : String)
  | materialize (link_id : String)
  | logInfo (msg : String)
  | logError (msg : String)
deriving DecidableEq

def isMaterialize : Effect → Bool
  | Effect.materialize _ => true
  | _ => false

/- One registry entry of LINK_DATA.actors: its link id and whether the
   actor currently holds a per-frame sample cache (LinkActor.cache set by
   prep_rig, cleared by write_sequence_actions or clear_cache). -/
structure LinkActorSt where
  link_id : String
  cache : Bool
deriving DecidableEq

/- The process-wide service state: LinkService socket and lifecycle
   fields (sockets reduced to presence booleans) plus the LinkData
   registry and session fields. -/
structure LinkSt where
  timer : Bool
  server_sock : Bool
  client_sock : Bool
  is_listening : Bool
  is_connected : Bool
  is_connecting : Bool
  ping_timer : ℚ
  keepalive_timer : ℚ
  is_sequence : Bool
  actors : List LinkActorSt
  sequence_actors : Option (List String)
  pose_actors : Option (List String)
deriving DecidableEq

/- send (src/link.py lines 1035-1049): only when client_sock is set and
   the state is connected or connecting does it build the header and
   payload, write them with sendall, reset ping_timer and emit sent;
   otherwise the body is skipped entirely. The successful-write path is
   modelled (a sendall failure would run service_lost instead). -/
def send (op : Nat) (s : LinkSt) : LinkSt × List Effect :=
  if s.client_sock = true ∧ (s.is_connected = true ∨ s.is_connecting = true) then
    ({ s with ping_timer := PING_INTERVAL_S }, [Effect.sent op, Effect.signal "sent"])
  else (s, [])

/- stop_timer (src/link.py lines 721-728). -/
def stop_timer (s : LinkSt) : LinkSt × List Effect :=
  if s.timer = true then ({ s with timer := false }, [Effect.logInfo "Service timer stopped"])
  else (s, [])

/- stop_client (src/link.py lines 773-788). Line 785 tests
   (if self.listening:), which is the listening Signal OBJECT, not the
   is_listening flag; a Python object is always truthy, so the keepalive
   timer is reset unconditionally. Note that neither the LinkData actors
   list nor the sequence fields are touched. -/
def stop_client (s : LinkSt) : LinkSt × List Effect :=
  ({ s with is_connected := false, is_connecting := false, client_sock := false,
            keepalive_timer := HANDSHAKE_TIMEOUT_S },
   (if s.client_sock = true then [Effect.logInfo "Closing Client Socket"] else []) ++
     [Effect.signal "client_stopped", Effect.signal "changed"])

/- stop_server (src/link.py lines 700-712). -/
def stop_server (s : LinkSt) : LinkSt × List Effect :=
  ({ s with is_listening := false, server_sock := false },
   (if s.server_sock = true then [Effect.logInfo "Closing Server Socket"] else []) ++
     [Effect.signal "server_stopped", Effect.signal "changed"])

/- service_stop (src/link.py lines 970-974): send STOP, stop_timer,
   stop_client, stop_server. -/
def service_stop (s : LinkSt) : LinkSt × List Effect :=
  let r1 := send OpCodes_STOP s
  let r2 := stop_timer r1.1
  let r3 := stop_client r2.1
  let r4 := stop_server r3.1
  (r4.1, r1.2 ++ (r2.2 ++ (r3.2 ++ r4.2)))

/- service_disconnect (src/link.py lines 964-968): send DISCONNECT, then
   stop_timer because CLIENT_ONLY is True (line 20), then stop_client. -/
def service_disconnect (s : LinkSt) : LinkSt × List Effect :=
  let r1 := send OpCodes_DISCONNECT s
  let r2 := stop_timer r1.1
  let r3 := stop_client r2.1
  (r3.1, r1.2 ++ (r2.2 ++ r3.2))

/- service_lost (src/link.py lines 976-980): emit lost_connection, then
   stop_timer, stop_client, stop_server. -/
def service_lost (s : LinkSt) : LinkSt × List Effect :=
  let r2 := stop_timer s
  let r3 := stop_client r2.1
  let r4 := stop_server r3.1
  (r4.1, Effect.signal "lost_connection" :: (r2.2 ++ (r3.2 ++ r4.2)))

/- LinkData.reset (src/link.py lines 149-152): clears the actor list and
   the session actor references. In the source it is invoked only from
   check_service (line 990) when the module globals were lost to a script
   reload, never from the stop, disconnect or lost paths. -/
def LinkData_reset (s : LinkSt) : LinkSt :=
  { s with actors := [], sequence_actors := none, pose_actors := none }

/- start_server (src/link.py lines 680-698), parameterized by whether
   the socket creation, bind and listen calls succeed. The keepalive
   timer is set before the try block. On success the socket is kept and
   is_listening is set True; in the except handler the socket is dropped
   and is_listening is ALSO set True (line 697). -/
def start_server (bindOk : Bool) (s : LinkSt) : LinkSt × List Effect :=
  if s.server_sock = false then
    if bindOk = true then
      ({ s with keepalive_timer := HANDSHAKE_TIMEOUT_S, server_sock := true,
                is_listening := true },
       [Effect.logInfo "Listening", Effect.signal "listening", Effect.signal "changed"])
    else
      ({ s with keepalive_timer := HANDSHAKE_TIMEOUT_S, server_sock := false,
                is_listening := true },
       [Effect.logError "Unable to start server"])
  else (s, [])

/- write_sequence_actions (src/link.py lines 547-600): when the actor
   holds a sample cache, materializes the cached curves into fcurves of
   persistent actions and clears the cache; with no cache it does
   nothing. It is called only from receive_pose_frame (line 1723) and
   receive_sequence_end (line 1785), never from the stop, disconnect or
   lost paths. -/
def write_sequence_actions (a : LinkActorSt) : LinkActorSt × List Effect :=
  if a.cache = true then ({ a with cache := false }, [Effect.materialize a.link_id])
  else (a, [])

/- Concrete states used by the closed theorems below. -/

def idleState : LinkSt :=
  ⟨false, false, false, false, false, false, 0, 0, false, [], none, none⟩

def midSessionState : LinkSt :=
  ⟨true, false, true, false, true, false, 120, 300, true,
   [⟨"actor1", true⟩], some ["actor1"], none⟩

def connectedState : LinkSt :=
  ⟨true, false, true, false, true, false, 120, 300, false,
   [⟨"actorA", false⟩, ⟨"actorB", false⟩], none, none⟩

/- ===== Helper lemmas ===== -/

theorem parseStep_okHandler (op : Nat) : parseStep okHandler op = HandlerRes.ok := by
  unfold parseStep okHandler
  split <;> rfl

theorem beU32_beBytes4 (n : Nat) (h : n < 4294967296) : beU32 (beBytes4 n) = n := by
  show ((((0 * 256 + n / 16777216 % 256) * 256 + n / 65536 % 256) * 256 + n / 256 % 256) * 256 +
      n % 256) = n
  omega

theorem utf8Encode_ascii (s : List Nat) (h : ∀ c ∈ s, c < 128) : utf8Encode s = s := by
  induction s with
  | nil => rfl
  | cons c cs ih =>
    have hc : c < 128 := h c (List.mem_cons_self _ _)
    have ih2 := ih (fun x hx => h x (List.mem_cons_of_mem _ hx))
    simp only [utf8Encode, List.map_cons, List.flatten_cons] at ih2 ⊢
    rw [ih2, utf8EncodeChar, if_pos hc]
    rfl

theorem utf8DecodeLoop_ascii (s : List Nat) (h : ∀ c ∈ s, c < 128) :
    utf8DecodeLoop s.length s = some s := by
  induction s with
  | nil => rfl
  | cons c cs ih =>
    have hc : c < 128 := h c (List.mem_cons_self _ _)
    have ih2 := ih (fun x hx => h x (List.mem_cons_of_mem _ hx))
    show utf8DecodeLoop (cs.length + 1) (c :: cs) = some (c :: cs)
    rw [utf8DecodeLoop]
    simp only [utf8DecodeStep.eq_def, if_pos hc, ih2]

theorem utf8Decode_ascii (s : List Nat) (h : ∀ c ∈ s, c < 128) : utf8Decode s = some s :=
  utf8DecodeLoop_ascii s h

theorem recvLoop_cap_aux (q : List Nat) : ∀ count : Nat,
    count < MAX_RECEIVE →
    MAX_RECEIVE - count < q.length →
    (∀ op ∈ q, op ≠ OpCodes_NOTIFY ∧ op ≠ OpCodes_STOP ∧ op ≠ OpCodes_DISCONNECT) →
    recvLoop okHandler q count =
      RecvResult.ok ⟨q.take (MAX_RECEIVE - count), q.drop (MAX_RECEIVE - count), true, true⟩ := by
  induction q with
  | nil =>
    intro count h1 h2 h3
    simp at h2
  | cons op rest ih =>
    intro count h1 h2 h3
    obtain ⟨hn, hs, hd⟩ := h3 op (List.mem_cons_self _ _)
    have hrest : ∀ x ∈ rest, x ≠ OpCodes_NOTIFY ∧ x ≠ OpCodes_STOP ∧ x ≠ OpCodes_DISCONNECT :=
      fun x hx => h3 x (List.mem_cons_of_mem _ hx)
    have hlen : MAX_RECEIVE - count < rest.length + 1 := by
      simpa using h2
    obtain ⟨r2, rs2, hre⟩ : ∃ r2 rs2, rest = r2 :: rs2 := by
      cases rest with
      | nil =>
        exfalso
        simp [MAX_RECEIVE] at hlen h1
        omega
      | cons a b => exact ⟨a, b, rfl⟩
    rw [recvLoop, parseStep_okHandler, recvAfterParse, recvOkBranch.eq_def]
    rw [if_neg (by tauto)]
    rw [hre]
    by_cases hcap : MAX_RECEIVE ≤ count + 1
    · rw [if_pos (Or.inl hcap)]
      have hone : MAX_RECEIVE - count = 1 := by
        simp [MAX_RECEIVE] at h1 hcap ⊢
        omega
      rw [hone]
      simp [hre]
    · rw [if_neg (by tauto)]
      have ihres := ih (count + 1) (by omega)
        (by simp only [MAX_RECEIVE] at h1 hlen hcap ⊢; omega) hrest
      rw [hre] at ihres
      rw [ihres]
      have hsucc : MAX_RECEIVE - count = (MAX_RECEIVE - (count + 1)) + 1 := by
        simp only [MAX_RECEIVE] at h1 ⊢
        omega
      rw [hsucc]
      simp [List.take_succ_cons, List.drop_succ_cons]

theorem recvLoop_notify_aux (p : List Nat) : ∀ count : Nat, ∀ rest : List Nat,
    (∀ op ∈ p, op ≠ OpCodes_NOTIFY ∧ op ≠ OpCodes_STOP ∧ op ≠ OpCodes_DISCONNECT) →
    count + p.length + 1 ≤ MAX_RECEIVE →
    recvLoop okHandler (p ++ OpCodes_NOTIFY :: rest) count =
      RecvResult.ok ⟨p ++ [OpCodes_NOTIFY], rest, !rest.isEmpty, true⟩ := by
  induction p with
  | nil =>
    intro count rest hp hlen
    rw [List.nil_append, recvLoop, parseStep_okHandler, recvAfterParse, recvOkBranch.eq_def]
    rw [if_neg (by simp [OpCodes_NOTIFY, OpCodes_STOP, OpCodes_DISCONNECT])]
    cases rest with
    | nil => simp
    | cons a b =>
      rw [if_pos (Or.inr rfl)]
      simp
  | cons op ptail ih =>
    intro count rest hp hlen
    obtain ⟨hn, hs, hd⟩ := hp op (List.mem_cons_self _ _)
    have hptail : ∀ x ∈ ptail, x ≠ OpCodes_NOTIFY ∧ x ≠ OpCodes_STOP ∧ x ≠ OpCodes_DISCONNECT :=
      fun x hx => hp x (List.mem_cons_of_mem _ hx)
    rw [List.cons_append, recvLoop, parseStep_okHandler, recvAfterParse, recvOkBranch.eq_def]
    rw [if_neg (by tauto)]
    obtain ⟨r2, rs2, hre⟩ : ∃ r2 rs2, ptail ++ OpCodes_NOTIFY :: rest = r2 :: rs2 := by
      cases hq : ptail ++ OpCodes_NOTIFY :: rest with
      | nil => simp at hq
      | cons a b => exact ⟨a, b, rfl⟩
    rw [hre]
    have hcap : ¬ (MAX_RECEIVE ≤ count + 1 ∨ op = OpCodes_NOTIFY) := by
      simp only [MAX_RECEIVE] at hlen ⊢
      simp only [List.length_cons] at hlen
      push_neg
      constructor
      · omega
      · exact hn
    rw [if_neg hcap]
    rw [← hre, ih (count + 1) rest hptail
      (by simp only [MAX_RECEIVE] at hlen ⊢; simp only [List.length_cons] at hlen; omega)]
    rw [hre]
    simp

theorem send_actors (op : Nat) (s : LinkSt) : (send op s).1.actors = s.actors := by
  unfold send
  split_ifs <;> rfl

theorem send_seq (op : Nat) (s : LinkSt) : (send op s).1.sequence_actors = s.sequence_actors := by
  unfold send
  split_ifs <;> rfl

theorem send_isseq (op : Nat) (s : LinkSt) : (send op s).1.is_sequence = s.is_sequence := by
  unfold send
  split_ifs <;> rfl

theorem send_nomat (op : Nat) (s : LinkSt) : (send op s).2.any isMaterialize = false := by
  unfold send
  split_ifs <;> simp [isMaterialize]

theorem stop_timer_actors (s : LinkSt) : (stop_timer s).1.actors = s.actors := by
  unfold stop_timer
  split_ifs <;> rfl

theorem stop_timer_seq (s : LinkSt) : (stop_timer s).1.sequence_actors = s.sequence_actors := by
  unfold stop_timer
  split_ifs <;> rfl

theorem stop_timer_isseq (s : LinkSt) : (stop_timer s).1.is_sequence = s.is_sequence := by
  unfold stop_timer
  split_ifs <;> rfl

theorem stop_timer_nomat (s : LinkSt) : (stop_timer s).2.any isMaterialize = false := by
  unfold stop_timer
  split_ifs <;> simp [isMaterialize]

theorem stop_client_actors (s : LinkSt) : (stop_client s).1.actors = s.actors := rfl

theorem stop_client_seq (s : LinkSt) :
    (stop_client s).1.sequence_actors = s.sequence_actors := rfl

theorem stop_client_isseq (s : LinkSt) : (stop_client s).1.is_sequence = s.is_sequence := rfl

theorem stop_client_nomat (s : LinkSt) : (stop_client s).2.any isMaterialize = false := by
  unfold stop_client
  split_ifs <;> simp [isMaterialize]

theorem stop_server_actors (s : LinkSt) : (stop_server s).1.actors = s.actors := rfl

theorem stop_server_seq (s : LinkSt) :
    (stop_server s).1.sequence_actors = s.sequence_actors := rfl

theorem stop_server_isseq (s : LinkSt) : (stop_server s).1.is_sequence = s.is_sequence := rfl

theorem stop_server_nomat (s : LinkSt) : (stop_server s).2.any isMaterialize = false := by
  unfold stop_server
  split_ifs <;> simp [isMaterialize]

/- The round trip that DOES hold: for strings of ASCII code points the
   code point count equals the utf-8 byte count, so the length prefix is
   consistent and unpack_string recovers the string, advancing the
   offset by 4 plus the byte count. -/
theorem pack_unpack_string_ascii (s : List Nat) (hascii : ∀ c ∈ s, c < 128)
    (hlen : s.length < 4294967296) :
    pack_string s = some (beBytes4 s.length ++ s) ∧
    unpack_string (beBytes4 s.length ++ s) 0 = Unpacked.ok (4 + s.length) s := by
  have henc := utf8Encode_ascii s hascii
  have hlen4 : (beBytes4 s.length).length = 4 := rfl
  constructor
  · unfold pack_string
    rw [if_pos hlen, henc]
  · unfold unpack_string readBE4
    have hcond : 0 + 4 ≤ (beBytes4 s.length ++ s).length := by
      simp [List.length_append, hlen4]
    rw [if_pos hcond]
    have htake : ((beBytes4 s.length ++ s).drop 0).take 4 = beBytes4 s.length := by
      rw [List.drop_zero]
      conv_lhs => rw [← hlen4]
      exact List.take_left _ _
    rw [htake, beU32_beBytes4 s.length hlen]
    have hdrop : (beBytes4 s.length ++ s).drop (0 + 4) = s := by
      have h := List.drop_left (beBytes4 s.length) s
      rw [hlen4] at h
      simpa using h
    rw [hdrop]
    simp [List.take_length, utf8Decode_ascii s hascii]

/- ===== Claim theorems ===== -/

/-- Claim C1. The claim states that encode_pose_data multiplies each
translation component by 100 in BOTH the rigified and the non-rigified
branch, that decode_pose_data multiplies each received translation
component by 0.01, and that encoding then decoding reproduces every
translation within 1e-5. Evaluating the embedded code at a non-rigified
actor with one bone at translation (1, 2, 3): the wire record carries
the translation UNSCALED, decoding it yields (1/100, 2/100, 3/100), and
the error 1 - 1/100 far exceeds 1/100000; only the rigified branch
multiplies by 100 and round trips exactly. -/
theorem c1_pose_translation_scale :
    encode_pose_data 0 [⟨[65], [49], false, [⟨1, 2, 3, 0, 0, 0, 1, 1, 1, 1⟩]⟩] =
      [WireVal.u32 1, WireVal.u32 0, WireVal.strfield [65], WireVal.strfield [49],
       WireVal.f32 1, WireVal.f32 2, WireVal.f32 3, WireVal.f32 0, WireVal.f32 0,
       WireVal.f32 0, WireVal.f32 1, WireVal.f32 1, WireVal.f32 1, WireVal.f32 1] ∧
    decode_bone_transform (packBonePlain ⟨1, 2, 3, 0, 0, 0, 1, 1, 1, 1⟩) =
      some ⟨1 / 100, 2 / 100, 3 / 100, 1, 0, 0, 0, 1, 1, 1⟩ ∧
    ¬ ((1 : ℚ) - 1 / 100 ≤ 1 / 100000) ∧
    decode_bone_transform (packBoneRigified ⟨1, 2, 3, 0, 0, 0, 1, 1, 1, 1⟩) =
      some ⟨1, 2, 3, 1, 0, 0, 0, 1, 1, 1⟩ := by
  refine ⟨?_, ?_, ?_, ?_⟩
  · norm_num [encode_pose_data, packBonePlain]
  · norm_num [decode_bone_transform, packBonePlain]
  · norm_num
  · norm_num [decode_bone_transform, packBoneRigified]

/-- Claim C2. The claim states that a remote orderly close, whose header
read yields an empty result, transitions the connection to Closed with a
lost_connection emission. In the code the test at line 812 is
(header == 0), a Python comparison of a bytes value with an int, which
is always False: on the empty header the service_lost branch
(closedByClient) is not taken and the message is merely skipped, leaving
the connection open. -/
theorem c2_orderly_close_dead_branch :
    recvHeaderAction [] = HeaderAction.skip ∧
    recvHeaderAction [] ≠ HeaderAction.closedByClient ∧
    pyEq (PyVal.bytes []) (PyVal.int 0) = false := by
  refine ⟨by decide, by decide, by decide⟩

/-- Claim C3 counterexample. A queue of 25 STOP messages has more than
MAX_RECEIVE queued messages, none of which is NOTIFY, yet one recv call
parses exactly ONE message, not 24: parse runs service_stop, which
closes the client socket, and the loop returns at the
has_client_sock check. -/
theorem c3_recv_cap_counterexample :
    recvLoop okHandler (List.replicate 25 OpCodes_STOP) 0 =
      RecvResult.ok ⟨[OpCodes_STOP], List.replicate 24 OpCodes_STOP, false, false⟩ ∧
    MAX_RECEIVE < (List.replicate 25 OpCodes_STOP).length ∧
    OpCodes_NOTIFY ∉ List.replicate 25 OpCodes_STOP ∧
    ([OpCodes_STOP] : List Nat).length ≠ MAX_RECEIVE := by
  refine ⟨by decide, by decide, by decide, by decide⟩

/-- Claim C3 (amended). If more than MAX_RECEIVE complete messages are
queued and none of them is NOTIFY, STOP or DISCONNECT, one recv call
parses exactly the first MAX_RECEIVE messages and leaves the remainder
queued; and whenever a parsed message opcode is NOTIFY, the call parses
no further message afterwards, regardless of how many messages have been
processed so far. -/
theorem c3_recv_cap_notify :
    (∀ q : List Nat, MAX_RECEIVE < q.length →
      (∀ op ∈ q, op ≠ OpCodes_NOTIFY ∧ op ≠ OpCodes_STOP ∧ op ≠ OpCodes_DISCONNECT) →
      recvLoop okHandler q 0 =
        RecvResult.ok ⟨q.take MAX_RECEIVE, q.drop MAX_RECEIVE, true, true⟩) ∧
    (∀ p rest : List Nat,
      (∀ op ∈ p, op ≠ OpCodes_NOTIFY ∧ op ≠ OpCodes_STOP ∧ op ≠ OpCodes_DISCONNECT) →
      p.length + 1 ≤ MAX_RECEIVE →
      recvLoop okHandler (p ++ OpCodes_NOTIFY :: rest) 0 =
        RecvResult.ok ⟨p ++ [OpCodes_NOTIFY], rest, !rest.isEmpty, true⟩) := by
  constructor
  · intro q h1 h2
    have h := recvLoop_cap_aux q 0 (by decide) (by simpa using h1) h2
    simpa using h
  · intro p rest hp hlen
    exact recvLoop_notify_aux p 0 rest hp (by omega)

/-- Claim C3 witness. Both parts of the amended claim applied at
concrete queues: 25 HELLO messages are capped at 24, and a NOTIFY after
two parsed messages returns early with one message still queued. -/
theorem c3_recv_cap_notify_witness :
    recvLoop okHandler (List.replicate 25 1) 0 =
      RecvResult.ok ⟨(List.replicate 25 1).take MAX_RECEIVE,
        (List.replicate 25 1).drop MAX_RECEIVE, true, true⟩ ∧
    recvLoop okHandler ([1, 2] ++ OpCodes_NOTIFY :: [3]) 0 =
      RecvResult.ok ⟨[1, 2] ++ [OpCodes_NOTIFY], [3], !([3] : List Nat).isEmpty, true⟩ :=
  ⟨c3_recv_cap_notify.1 (List.replicate 25 1) (by decide) (by decide),
   c3_recv_cap_notify.2 [1, 2] [3] (by decide) (by decide)⟩

/-- Claim C4 counterexample. A NOTIFY message whose handler raises (as
receive_notify does on a malformed JSON payload): the exception is NOT
caught at the dispatch boundary, it propagates out of the receive loop
as a raised result instead of being logged and swallowed. -/
theorem c4_handler_exception_counterexample :
    recvLoop throwingHandlers [OpCodes_NOTIFY] 0 =
      RecvResult.raised "UnicodeDecodeError" := by decide

/-- Claim C4 (amended). An exception raised inside an opcode handler is
not caught at the dispatch boundary: parse and recv contain no exception
handling around the handler calls, so for every opcode outside the
PING, STOP and DISCONNECT branches, a raising handler makes the whole
receive call raise, which terminates the scheduler tick. -/
theorem c4_handler_exception_propagates (handler : Nat → HandlerRes) (op : Nat)
    (rest : List Nat) (count : Nat) (e : String)
    (hping : op ≠ OpCodes_PING) (hstop : op ≠ OpCodes_STOP) (hdisc : op ≠ OpCodes_DISCONNECT)
    (hexn : handler op = HandlerRes.exn e) :
    recvLoop handler (op :: rest) count = RecvResult.raised e := by
  have hps : parseStep handler op = HandlerRes.exn e := by
    unfold parseStep
    rw [if_neg (by tauto), hexn]
  rw [recvLoop, hps, recvAfterParse]

/-- Claim C4 witness. The propagation theorem applied at a concrete
SEQUENCE_FRAME message whose handler raises. -/
theorem c4_handler_exception_propagates_witness :
    recvLoop (fun _ => HandlerRes.exn "boom") (OpCodes_SEQUENCE_FRAME :: [OpCodes_PING]) 3 =
      RecvResult.raised "boom" :=
  c4_handler_exception_propagates (fun _ => HandlerRes.exn "boom") OpCodes_SEQUENCE_FRAME
    [OpCodes_PING] 3 "boom" (by decide) (by decide) (by decide) rfl

/-- Claim C5 counterexample. A state in a mid-stream sequence session
(one actor with a live sample cache, sequence_actors set, is_sequence
true): after service_stop the session is NOT discarded -- the
sequence_actors reference, the actor cache and the is_sequence flag all
survive -- although no materialization effect is emitted. By contrast
write_sequence_actions is what materialization would look like. -/
theorem c5_abort_counterexample :
    (service_stop midSessionState).1.sequence_actors = some ["actor1"] ∧
    (service_stop midSessionState).1.actors = [⟨"actor1", true⟩] ∧
    (service_stop midSessionState).1.is_sequence = true ∧
    (service_stop midSessionState).2.any isMaterialize = false ∧
    write_sequence_actions ⟨"actor1", true⟩ = (⟨"actor1", false⟩, [Effect.materialize "actor1"]) := by
  refine ⟨by decide, by decide, by decide, by decide, by decide⟩

/-- Claim C5 (amended). Closing the connection mid-session via STOP
(service_stop) or DISCONNECT (service_disconnect) never materializes
cached samples -- no materialize effect is ever emitted on those paths,
write_sequence_actions is only reached from the SEQUENCE_END and
POSE_FRAME handlers -- but the session is NOT explicitly discarded
either: sequence_actors, the per-actor caches and the is_sequence flag
are left untouched. -/
theorem c5_abort_no_cleanup_no_materialize (s : LinkSt) :
    (service_stop s).1.sequence_actors = s.sequence_actors ∧
    (service_stop s).1.actors = s.actors ∧
    (service_stop s).1.is_sequence = s.is_sequence ∧
    (service_disconnect s).1.sequence_actors = s.sequence_actors ∧
    (service_disconnect s).1.actors = s.actors ∧
    (service_disconnect s).1.is_sequence = s.is_sequence ∧
    (service_stop s).2.any isMaterialize = false ∧
    (service_disconnect s).2.any isMaterialize = false := by
  unfold service_stop service_disconnect
  simp only [List.any_append]
  refine ⟨?_, ?_, ?_, ?_, ?_, ?_, ?_, ?_⟩ <;>
    simp [send_actors, send_seq, send_isseq, send_nomat, stop_timer_actors, stop_timer_seq,
      stop_timer_isseq, stop_timer_nomat, stop_client_actors, stop_client_seq, stop_client_isseq,
      stop_client_nomat, stop_server_actors, stop_server_seq, stop_server_isseq, stop_server_nomat]

/-- Claim C6. The claim states that unpack_string recovers every utf-8
string from pack_string. pack_string prefixes len(s), the code point
count, while the utf-8 payload of a non-ASCII string is longer than
that: for the one-character string of code point 233 the payload is two
bytes, unpack_string slices only the first of them, and decoding the
lone lead byte raises a UnicodeDecodeError. -/
theorem c6_pack_unpack_nonascii_fails :
    pack_string [233] = some [0, 0, 0, 1, 195, 169] ∧
    unpack_string [0, 0, 0, 1, 195, 169] 0 = Unpacked.unicodeError ∧
    (128 ≤ 233) := by
  refine ⟨by decide, by decide, by decide⟩

/-- Claim C7 counterexample. A buffer whose 4-byte prefix announces 5
bytes while only 3 bytes follow: unpack_string does not fail -- it
silently returns the 3 available bytes decoded, with the offset advanced
to 9, past the end of the 7-byte buffer. -/
theorem c7_truncation_counterexample :
    unpack_string [0, 0, 0, 5, 97, 98, 99] 0 = Unpacked.ok 9 [97, 98, 99] ∧
    ([0, 0, 0, 5, 97, 98, 99] : List Nat).length < 0 + 4 + 5 := by
  refine ⟨by decide, by decide⟩

/-- Claim C7 (amended). When fewer than the prefixed length bytes remain
after the 4-byte length field, unpack_string silently truncates: it
returns the decode of the bytes that do remain (whenever they are valid
utf-8) and still advances the offset by 4 plus the full prefixed length,
past the end of the buffer; no TruncatedData failure exists. -/
theorem c7_truncated_silent (buffer : List Nat) (offset len : Nat) (s : List Nat)
    (hpre : readBE4 buffer offset = some len)
    (hshort : buffer.length < offset + 4 + len)
    (hdec : utf8Decode ((buffer.drop (offset + 4)).take len) = some s) :
    unpack_string buffer offset = Unpacked.ok (offset + 4 + len) s := by
  unfold unpack_string
  rw [hpre]
  simp only [hdec]

/-- Claim C7 witness. The truncation theorem applied at a concrete
buffer announcing 3 bytes with only 2 present. -/
theorem c7_truncated_silent_witness :
    unpack_string [0, 0, 0, 3, 104, 105] 0 = Unpacked.ok (0 + 4 + 3) [104, 105] :=
  c7_truncated_silent [0, 0, 0, 3, 104, 105] 0 3 [104, 105] (by decide) (by decide) (by decide)

/-- Claim C8 counterexample. A connected state with two registered
actors: after service_stop the registry still holds both actors, and
after service_lost it is not empty either, although the claim requires
it to be reset to empty on every transition to Closed. -/
theorem c8_registry_counterexample :
    (service_stop connectedState).1.actors = [⟨"actorA", false⟩, ⟨"actorB", false⟩] ∧
    (service_lost connectedState).1.actors ≠ [] := by
  refine ⟨by decide, by decide⟩

/-- Claim C8 (amended). The Closed transitions -- service_stop on STOP,
service_disconnect on DISCONNECT, service_lost on connection loss --
leave the actor registry unchanged; the registry is cleared only by
LinkData.reset, which the source invokes solely from check_service after
a script reload. -/
theorem c8_registry_survives_close (s : LinkSt) :
    (service_stop s).1.actors = s.actors ∧
    (service_disconnect s).1.actors = s.actors ∧
    (service_lost s).1.actors = s.actors ∧
    (LinkData_reset s).actors = [] := by
  unfold service_stop service_disconnect service_lost LinkData_reset
  refine ⟨?_, ?_, ?_, rfl⟩ <;>
    simp [send_actors, stop_timer_actors, stop_client_actors, stop_server_actors]

/-- Claim C9. The claim states that a bind or listen failure leaves the
connection in Idle, in particular not Listening. Evaluating start_server
with a failing bind on the idle state: the except handler at line 697
sets is_listening to True while dropping the socket, so the service
reports Listening with no server socket; the failure is logged and not
fatal, but the state is not Idle. -/
theorem c9_start_server_failure_listening :
    (start_server false idleState).1.is_listening = true ∧
    (start_server false idleState).1.server_sock = false ∧
    (start_server false idleState).2 = [Effect.logError "Unable to start server"] := by
  refine ⟨by decide, by decide, by decide⟩

/-- Claim C10. When there is no peer socket, or the state is neither
Connected nor Connecting, send is a silent no-op: the guard at line 1036
fails, no bytes are written, nothing is raised, and the returned state
is exactly the input state with an empty effect trace. -/
theorem c10_send_noop (op : Nat) (s : LinkSt)
    (h : ¬ (s.client_sock = true ∧ (s.is_connected = true ∨ s.is_connecting = true))) :
    send op s = (s, []) := by
  unfold send
  exact if_neg h

/-- Claim C10 witness. A POSE send on the idle state, which has no
client socket, returns the state unchanged with no effects. -/
theorem c10_send_noop_witness : send OpCodes_POSE idleState = (idleState, []) :=
  c10_send_noop OpCodes_POSE idleState (by decide)
